import Mathlib

/-!
Shallow embedding of the character-system core of `db-path-to-power`
(BaseStats, Attributes, Resources, CombatStats, Resistances, Character),
translated from the JavaScript sources.  JS numbers are modelled as
rationals (`ℚ`); `Math.floor` is `Int.floor`, `Math.ceil` is `Int.ceil`,
and `Math.round` (used only on non-negative inputs here) is
`⌊x + 1/2⌋`.  String-keyed dynamic dispatch is kept as dispatch on
`String`.
-/

namespace DBPath

/-! ## BaseStats (src/systems/BaseStats.js) -/

/-- The nine stat values held by `CharacterBaseStats`. -/
structure CharacterBaseStats where
  hp : ℚ
  ki : ℚ
  sta : ℚ
  str : ℚ
  vit : ℚ
  tec : ℚ
  wis : ℚ
  aura : ℚ
  agi : ℚ
deriving DecidableEq, Repr

/-- `Object.values(StatKeys)`: the nine recognized stat keys. -/
def statKeyValues : List String :=
  ["hp", "ki", "sta", "str", "vit", "tec", "wis", "aura", "agi"]

/-- `CharacterBaseStats.getStat`: returns the value for a recognized key and
`0` (with a warning) for an unrecognized one. -/
def getStat (bs : CharacterBaseStats) (key : String) : ℚ :=
  if key = "hp" then bs.hp
  else if key = "ki" then bs.ki
  else if key = "sta" then bs.sta
  else if key = "str" then bs.str
  else if key = "vit" then bs.vit
  else if key = "tec" then bs.tec
  else if key = "wis" then bs.wis
  else if key = "aura" then bs.aura
  else if key = "agi" then bs.agi
  else 0

/-- Write a recognized stat field; unrecognized keys leave the record as is
(the source never reaches this case with an unrecognized key because
`increaseStat` validates first). -/
def setStat (bs : CharacterBaseStats) (key : String) (v : ℚ) : CharacterBaseStats :=
  if key = "hp" then { bs with hp := v }
  else if key = "ki" then { bs with ki := v }
  else if key = "sta" then { bs with sta := v }
  else if key = "str" then { bs with str := v }
  else if key = "vit" then { bs with vit := v }
  else if key = "tec" then { bs with tec := v }
  else if key = "wis" then { bs with wis := v }
  else if key = "aura" then { bs with aura := v }
  else if key = "agi" then { bs with agi := v }
  else bs

/-- `CharacterBaseStats.increaseStat(statKey, amount)`: fails (no mutation)
for an unrecognized key or a non-positive amount, otherwise adds `amount`
to the named stat and reports success. -/
def increaseStat (bs : CharacterBaseStats) (key : String) (amount : ℚ) :
    Bool × CharacterBaseStats :=
  if key ∉ statKeyValues then (false, bs)
  else if amount ≤ 0 then (false, bs)
  else (true, setStat bs key (getStat bs key + amount))

/-- `new CharacterBaseStats(config)` with all defaults filled in by the
caller (the JS constructor defaults are hp=100, ki=50, sta=75 and 10 for
the six combat stats). -/
def mkCharacterBaseStats (hp ki sta str vit tec wis aura agi : ℚ) :
    CharacterBaseStats :=
  ⟨hp, ki, sta, str, vit, tec, wis, aura, agi⟩

/-! ## Attributes (src/systems/Attributes.js)

Race and alignment are carried by the source only for validation and
logging; no claim reads them, so they are omitted from the state.  JS
`xp` amounts may be arbitrary numbers (`ℚ` here); `xpToNextLevel` starts
at an integer (default 100) and every update goes through `Math.floor`,
so it is carried as `ℤ`. -/

/-- The progression state held by `CharacterAttributes`, including the
(optional) link to the `CharacterBaseStats` instance used by
`allocateStatPoint`. -/
structure CharacterAttributes where
  level : ℤ
  xp : ℚ
  xpToNextLevel : ℤ
  potential : ℚ
  potentialCap : ℚ
  unallocatedStatPoints : ℤ
  skillPoints : ℤ
  baseStats : Option CharacterBaseStats
deriving DecidableEq, Repr

/-- `new CharacterAttributes(config)`: every field is stored as given;
`potentialCap` defaults to `potential` when the configuration does not
supply it (`potentialCap = potential` in the parameter list), and no
clamping of `potential` against `potentialCap` is performed. -/
def mkCharacterAttributes (level : ℤ) (xp : ℚ) (xpToNextLevel : ℤ)
    (potential : ℚ) (potentialCapOpt : Option ℚ)
    (unallocatedStatPoints skillPoints : ℤ)
    (baseStats : Option CharacterBaseStats) : CharacterAttributes :=
  { level := level
    xp := xp
    xpToNextLevel := xpToNextLevel
    potential := potential
    potentialCap := potentialCapOpt.getD potential
    unallocatedStatPoints := unallocatedStatPoints
    skillPoints := skillPoints
    baseStats := baseStats }

/-- `CharacterAttributes.levelUp`: level +1, +5 unallocated stat points,
+1 skill point, and `xpToNextLevel := Math.floor(xpToNextLevel * 1.2)`. -/
def CharacterAttributes.levelUp (s : CharacterAttributes) : CharacterAttributes :=
  { s with
    level := s.level + 1
    unallocatedStatPoints := s.unallocatedStatPoints + 5
    skillPoints := s.skillPoints + 1
    xpToNextLevel := ⌊(s.xpToNextLevel : ℚ) * (6 / 5)⌋ }

/-- One iteration of the `while` loop in `addXP`: subtract the current
threshold from `xp`, then run `levelUp` (which updates the threshold). -/
def levelStep (s : CharacterAttributes) : CharacterAttributes :=
  CharacterAttributes.levelUp { s with xp := s.xp - (s.xpToNextLevel : ℚ) }

/-- The `while (this.xp >= this.xpToNextLevel)` loop of `addXP`.  The JS
loop has no `0 < xpToNextLevel` conjunct; with a non-positive threshold
and `xp ≥ threshold` it never exits, so the extra conjunct here exactly
delimits the loop's terminating executions (on the claims' precondition
`0 < xpToNextLevel` the conjunct is invariantly true, because
`⌊t * 1.2⌋ ≥ t` for `t ≥ 1`, and the two loops coincide). -/
def addXPLoop (s : CharacterAttributes) : CharacterAttributes :=
  if h : 0 < s.xpToNextLevel ∧ (s.xpToNextLevel : ℚ) ≤ s.xp then
    addXPLoop (levelStep s)
  else s
termination_by ⌊s.xp⌋.toNat
decreasing_by
  obtain ⟨h1, h2⟩ := h
  have h1' : (1 : ℚ) ≤ (s.xpToNextLevel : ℚ) := by exact_mod_cast h1
  have hfl : 1 ≤ ⌊s.xp⌋ := Int.le_floor.mpr (le_trans h1' h2)
  simp only [levelStep, CharacterAttributes.levelUp]
  rw [Int.floor_sub_int]
  omega

/-- `CharacterAttributes.addXP(amount)`: add the amount to `xp`, then run
the cascading level-up loop. -/
def addXP (s : CharacterAttributes) (amount : ℚ) : CharacterAttributes :=
  addXPLoop { s with xp := s.xp + amount }

/-- The raw `while` loop of `addXP` with an explicit fuel budget and no
extra guard: `none` means the budget ran out before the loop condition
became false.  Termination of the JS loop is the statement that some
finite fuel returns `some`. -/
def addXPFuel : ℕ → CharacterAttributes → Option CharacterAttributes
  | 0, s => if (s.xpToNextLevel : ℚ) ≤ s.xp then none else some s
  | fuel + 1, s =>
    if (s.xpToNextLevel : ℚ) ≤ s.xp then addXPFuel fuel (levelStep s)
    else some s

/-- `CharacterAttributes.allocateStatPoint(statKey)`: fails (returning
`false` with the state untouched) when no points are unallocated, when no
`BaseStats` is linked, or when the key is unrecognized; otherwise
delegates to `increaseStat(statKey, 1)` and deducts one point only on
success. -/
def allocateStatPoint (s : CharacterAttributes) (statKey : String) :
    Bool × CharacterAttributes :=
  if s.unallocatedStatPoints ≤ 0 then (false, s)
  else
    match s.baseStats with
    | none => (false, s)
    | some bs =>
      if statKey ∉ statKeyValues then (false, s)
      else
        let r := increaseStat bs statKey 1
        if r.1 then
          (true, { s with
            baseStats := some r.2
            unallocatedStatPoints := s.unallocatedStatPoints - 1 })
        else (false, { s with baseStats := some r.2 })

/-- `CharacterAttributes.useSkillPoint(skillId)`: succeeds and deducts a
point when `skillPoints > 0`, otherwise fails with no mutation (the skill
effect itself is out of scope in the source too). -/
def useSkillPoint (s : CharacterAttributes) : Bool × CharacterAttributes :=
  if 0 < s.skillPoints then (true, { s with skillPoints := s.skillPoints - 1 })
  else (false, s)

/-- `CharacterAttributes.increasePotential(amount)`:
`potential := min(potential + amount, potentialCap)`. -/
def increasePotential (s : CharacterAttributes) (amount : ℚ) :
    CharacterAttributes :=
  { s with potential := min (s.potential + amount) s.potentialCap }

/-- The mutating operations on `CharacterAttributes`, for stating
reachability invariants. -/
inductive AttrOp where
  | addXP (amount : ℚ)
  | levelUp
  | allocateStatPoint (key : String)
  | useSkillPoint
  | increasePotential (amount : ℚ)
deriving DecidableEq, Repr

/-- Apply one attribute operation (discarding any boolean result). -/
def applyAttrOp (s : CharacterAttributes) : AttrOp → CharacterAttributes
  | .addXP a => addXP s a
  | .levelUp => s.levelUp
  | .allocateStatPoint k => (allocateStatPoint s k).2
  | .useSkillPoint => (useSkillPoint s).2
  | .increasePotential a => increasePotential s a

/-- Apply a finite sequence of attribute operations, left to right. -/
def applyAttrOps (s : CharacterAttributes) (ops : List AttrOp) :
    CharacterAttributes :=
  ops.foldl applyAttrOp s

/-! ## Resources (src/systems/Resources.js) -/

/-- The resource pools held by `CharacterResources`: calculated maxima
(`Math.floor` results, hence `ℤ`) and current values. -/
structure CharacterResources where
  maxHealth : ℤ
  maxKi : ℤ
  maxStamina : ℤ
  health : ℚ
  ki : ℚ
  stamina : ℚ
  fatigue : ℚ
deriving DecidableEq, Repr

/-- `calculateMaxValues`: recompute the three maxima from base stats and
level (`Math.floor` of each formula). -/
def calculateMaxValues (attrs : CharacterAttributes) (bs : CharacterBaseStats)
    (s : CharacterResources) : CharacterResources :=
  { s with
    maxHealth := ⌊getStat bs "hp" + (attrs.level : ℚ) * 10 + getStat bs "vit" * 5⌋
    maxKi := ⌊getStat bs "ki" + (attrs.level : ℚ) * 5 + getStat bs "wis" * 3 +
      getStat bs "aura" * 2⌋
    maxStamina := ⌊getStat bs "sta" + (attrs.level : ℚ) * 5 + getStat bs "vit" * 2 +
      getStat bs "agi" * 3⌋ }

/-- `setToMax`: copy each calculated maximum into the current value. -/
def setToMax (s : CharacterResources) : CharacterResources :=
  { s with
    health := (s.maxHealth : ℚ)
    ki := (s.maxKi : ℚ)
    stamina := (s.maxStamina : ℚ) }

/-- `new CharacterResources(attributes, baseStats)`: currents and maxima
start at 0, then `calculateMaxValues()` and `setToMax()` run; fatigue
starts at 0 and is not touched by either. -/
def mkCharacterResources (attrs : CharacterAttributes)
    (bs : CharacterBaseStats) : CharacterResources :=
  setToMax (calculateMaxValues attrs bs ⟨0, 0, 0, 0, 0, 0, 0⟩)

/-- The clamp performed by `_modifyResource`:
`Math.max(min, Math.min(value + amount, max))`. -/
def modifyValue (v amount mn mx : ℚ) : ℚ := max mn (min (v + amount) mx)

/-- `takeDamage(amount)`: non-positive amounts are ignored; otherwise
health moves by `-amount`, clamped to `[0, maxHealth]`. -/
def CharacterResources.takeDamage (s : CharacterResources) (amount : ℚ) :
    CharacterResources :=
  if amount ≤ 0 then s
  else { s with health := modifyValue s.health (-amount) 0 (s.maxHealth : ℚ) }

/-- `restoreHealth(amount)`: non-positive amounts are ignored; otherwise
health moves by `+amount`, clamped to `[0, maxHealth]`. -/
def restoreHealth (s : CharacterResources) (amount : ℚ) : CharacterResources :=
  if amount ≤ 0 then s
  else { s with health := modifyValue s.health amount 0 (s.maxHealth : ℚ) }

/-- `useKi(amount)`: for positive amounts, fails (no mutation) when
`ki < amount`, otherwise deducts with the usual clamp.  For `amount ≤ 0`
the JS returns the current `ki` value itself; its truthiness is recorded
here as the boolean. -/
def useKi (s : CharacterResources) (amount : ℚ) : Bool × CharacterResources :=
  if amount ≤ 0 then (decide (s.ki ≠ 0), s)
  else if s.ki < amount then (false, s)
  else (true, { s with ki := modifyValue s.ki (-amount) 0 (s.maxKi : ℚ) })

/-- `restoreKi(amount)`: non-positive amounts are ignored; otherwise ki
moves by `+amount`, clamped to `[0, maxKi]`. -/
def restoreKi (s : CharacterResources) (amount : ℚ) : CharacterResources :=
  if amount ≤ 0 then s
  else { s with ki := modifyValue s.ki amount 0 (s.maxKi : ℚ) }

/-- `addFatigue(amount)`: non-positive amounts are ignored; otherwise
fatigue moves by `+amount`, clamped to `[0, 100]`. -/
def addFatigue (s : CharacterResources) (amount : ℚ) : CharacterResources :=
  if amount ≤ 0 then s
  else { s with fatigue := modifyValue s.fatigue amount 0 100 }

/-- `reduceFatigue(amount)`: non-positive amounts are ignored; otherwise
fatigue moves by `-amount`, clamped to `[0, 100]`. -/
def reduceFatigue (s : CharacterResources) (amount : ℚ) : CharacterResources :=
  if amount ≤ 0 then s
  else { s with fatigue := modifyValue s.fatigue (-amount) 0 100 }

/-- `useStamina(amount)`: for positive amounts, fails (no mutation) when
`stamina < amount`; on success deducts stamina with the usual clamp and
then adds `Math.ceil(amount * 0.1)` fatigue.  For `amount ≤ 0` the JS
returns the current `stamina` value; its truthiness is the boolean. -/
def useStamina (s : CharacterResources) (amount : ℚ) :
    Bool × CharacterResources :=
  if amount ≤ 0 then (decide (s.stamina ≠ 0), s)
  else if s.stamina < amount then (false, s)
  else
    let s1 : CharacterResources :=
      { s with stamina := modifyValue s.stamina (-amount) 0 (s.maxStamina : ℚ) }
    (true, addFatigue s1 ((⌈amount * (1 / 10)⌉ : ℤ) : ℚ))

/-- `recoverStamina(amount)`: non-positive amounts are ignored; otherwise
stamina moves by `+amount`, clamped to `[0, maxStamina]`. -/
def recoverStamina (s : CharacterResources) (amount : ℚ) : CharacterResources :=
  if amount ≤ 0 then s
  else { s with stamina := modifyValue s.stamina amount 0 (s.maxStamina : ℚ) }

/-- The mutating operations on `CharacterResources`, each with an
arbitrary (possibly overshooting) amount. -/
inductive ResourceOp where
  | takeDamage (amount : ℚ)
  | restoreHealth (amount : ℚ)
  | useKi (amount : ℚ)
  | restoreKi (amount : ℚ)
  | useStamina (amount : ℚ)
  | recoverStamina (amount : ℚ)
  | addFatigue (amount : ℚ)
  | reduceFatigue (amount : ℚ)
deriving DecidableEq, Repr

/-- Apply one resource operation (discarding any boolean result). -/
def applyResourceOp (s : CharacterResources) : ResourceOp → CharacterResources
  | .takeDamage a => s.takeDamage a
  | .restoreHealth a => restoreHealth s a
  | .useKi a => (useKi s a).2
  | .restoreKi a => restoreKi s a
  | .useStamina a => (useStamina s a).2
  | .recoverStamina a => recoverStamina s a
  | .addFatigue a => addFatigue s a
  | .reduceFatigue a => reduceFatigue s a

/-- Apply a finite sequence of resource operations, left to right (every
intermediate state of a run is the result of such a prefix). -/
def applyResourceOps (s : CharacterResources) (ops : List ResourceOp) :
    CharacterResources :=
  ops.foldl applyResourceOp s

/-- The resource-pool invariant: each current value lies in `[0, max]`
and fatigue lies in `[0, 100]`. -/
def ResourcesInv (s : CharacterResources) : Prop :=
  0 ≤ s.health ∧ s.health ≤ (s.maxHealth : ℚ) ∧
    0 ≤ s.ki ∧ s.ki ≤ (s.maxKi : ℚ) ∧
    0 ≤ s.stamina ∧ s.stamina ≤ (s.maxStamina : ℚ) ∧
    0 ≤ s.fatigue ∧ s.fatigue ≤ 100

instance (s : CharacterResources) : Decidable (ResourcesInv s) := by
  unfold ResourcesInv; infer_instance

/-! ## Resistances (src/systems/Resistances.js) -/

/-- The cached resistance values held by `CharacterResistances`. -/
structure CharacterResistances where
  physicalResist : ℚ
  energyResist : ℚ
  statusResist : ℚ
deriving DecidableEq, Repr

/-- `calculatePhysicalResistance`: `min((vit / (vit + 100)) * 0.90, 0.90)`. -/
def calculatePhysicalResistance (bs : CharacterBaseStats) : ℚ :=
  min (getStat bs "vit" / (getStat bs "vit" + 100) * (9 / 10)) (9 / 10)

/-- `calculateEnergyResistance`: `min((aura / (aura + 100)) * 0.90, 0.90)`. -/
def calculateEnergyResistance (bs : CharacterBaseStats) : ℚ :=
  min (getStat bs "aura" / (getStat bs "aura" + 100) * (9 / 10)) (9 / 10)

/-- `calculateStatusResistance`: weighted VIT/WIS/AURA contributions,
capped at 0.85. -/
def calculateStatusResistance (bs : CharacterBaseStats) : ℚ :=
  min (getStat bs "vit" / (getStat bs "vit" + 120) * (2 / 5) +
      getStat bs "wis" / (getStat bs "wis" + 120) * (3 / 10) +
      getStat bs "aura" / (getStat bs "aura" + 120) * (3 / 20))
    (17 / 20)

/-- `CharacterResistances.updateAll` result (also the state right after
construction, which zeroes the fields and immediately calls
`updateAll`). -/
def resistancesUpdateAll (bs : CharacterBaseStats) : CharacterResistances :=
  { physicalResist := calculatePhysicalResistance bs
    energyResist := calculateEnergyResistance bs
    statusResist := calculateStatusResistance bs }

/-- `getResistance(key)`: dispatch on the `ResistanceKeys` strings,
returning 0 for an unrecognized kind. -/
def getResistance (r : CharacterResistances) (key : String) : ℚ :=
  if key = "physicalResist" then r.physicalResist
  else if key = "energyResist" then r.energyResist
  else if key = "statusResist" then r.statusResist
  else 0

/-! ## Character (src/Character.js)

The façade owns one instance of each system.  `CharacterDerivedStats`
and `CharacterCombatStats` are also constructed by the source, but no
operation modelled by the claims reads them through the façade, so the
record carries only the four components the claims touch. -/

/-- The composition root. -/
structure Character where
  baseStats : CharacterBaseStats
  attributes : CharacterAttributes
  resources : CharacterResources
  resistances : CharacterResistances
deriving DecidableEq, Repr

/-- `new Character({attributesConfig, baseStatsConfig})`: BaseStats from
its config, Attributes from its config with the BaseStats reference
spliced in, then Resources and Resistances built from the two. -/
def mkCharacter (hp ki sta str vit tec wis aura agi : ℚ) (level : ℤ)
    (xp : ℚ) (xpToNextLevel : ℤ) (potential : ℚ)
    (potentialCapOpt : Option ℚ) (unallocatedStatPoints skillPoints : ℤ) :
    Character :=
  let bs := mkCharacterBaseStats hp ki sta str vit tec wis aura agi
  let attrs := mkCharacterAttributes level xp xpToNextLevel potential
    potentialCapOpt unallocatedStatPoints skillPoints (some bs)
  { baseStats := bs
    attributes := attrs
    resources := mkCharacterResources attrs bs
    resistances := resistancesUpdateAll bs }

/-- JS `Math.round`; every use in the modelled code applies it to a
non-negative value, where it is `⌊x + 1/2⌋` (half rounds up). -/
def jsRound (x : ℚ) : ℤ := ⌊x + 1 / 2⌋

/-- `Character.takeDamage(amount, type)`: mitigated damage is
`Math.max(0, Math.round(amount * (1 - resistance)))`, forwarded to
`Resources.takeDamage`; the defeat check reads health but changes no
state. -/
def Character.takeDamage (ch : Character) (amount : ℚ) (kind : String) :
    Character :=
  let resistanceValue := getResistance ch.resistances kind
  let mitigated : ℤ := max 0 (jsRound (amount * (1 - resistanceValue)))
  { ch with resources := ch.resources.takeDamage (mitigated : ℚ) }

/-! ## CombatStats (src/systems/CombatStats.js)

The crit-tier thresholds are fixed in the `_critTiers` table at
construction and never rewritten; the multipliers are rewritten by
`calculateCritDamage` / `calculateEnergyCritDamage` during `updateAll`. -/

/-- `_critTiers.regular.threshold` (1 = 100%). -/
def regularThreshold : ℚ := 1

/-- `_critTiers.super.threshold` (1.01). -/
def superThreshold : ℚ := 101 / 100

/-- `_critTiers.mega.threshold` (2.01). -/
def megaThreshold : ℚ := 201 / 100

/-- `_critTiers.omega.threshold` (3.01). -/
def omegaThreshold : ℚ := 301 / 100

/-- `calculateCritChance`: `0.05 + tec / 150`, unbounded above. -/
def calculateCritChance (tec : ℚ) : ℚ := 1 / 20 + tec / 150

/-- `calculateCritDamage` (physical): `1.5 + (str / (str + 200)) * 3.5`. -/
def calculateCritDamage (str : ℚ) : ℚ := 3 / 2 + str / (str + 200) * (7 / 2)

/-- `calculateEnergyCritDamage`: `1.5 + (tec / (tec + 200)) * 3.5`. -/
def calculateEnergyCritDamage (tec : ℚ) : ℚ := 3 / 2 + tec / (tec + 200) * (7 / 2)

/-- One row of the `_critTiers` table. -/
structure CritTier where
  threshold : ℚ
  physMultiplier : ℚ
  energyMultiplier : ℚ
  defenseIgnore : ℚ
  guaranteedKnockback : Bool
deriving DecidableEq, Repr

/-- The five rows of the `_critTiers` table. -/
structure CritTierTable where
  normal : CritTier
  regular : CritTier
  super : CritTier
  mega : CritTier
  omega : CritTier
deriving DecidableEq, Repr

/-- The `_critTiers` table as it stands after `updateAll` has run
`calculateCritDamage` and `calculateEnergyCritDamage` (which overwrite the
constructor's zero multipliers): normal = 1.0, regular = super = the base
crit damage, mega = 1.5x, omega = 2.0x, with the fixed defense-ignore
fractions and the omega-only knockback flag. -/
def updatedCritTiers (str tec : ℚ) : CritTierTable :=
  let cd := calculateCritDamage str
  let ecd := calculateEnergyCritDamage tec
  { normal := ⟨0, 1, 1, 0, false⟩
    regular := ⟨regularThreshold, cd, ecd, 0, false⟩
    super := ⟨superThreshold, cd, ecd, 1 / 4, false⟩
    mega := ⟨megaThreshold, cd * (3 / 2), ecd * (3 / 2), 1 / 4, false⟩
    omega := ⟨omegaThreshold, cd * 2, ecd * 2, 1 / 2, true⟩ }

/-- The super-tier check and final fall-through of `rollCriticalHit`
(`i` is the index of the next unconsumed random draw). -/
def rollSuperOrBelow (critChance : ℚ) (rand : ℕ → ℚ) (i : ℕ) : String :=
  if superThreshold ≤ critChance then
    let superChance := (critChance - superThreshold + 1 / 100) /
      (superThreshold - regularThreshold)
    if rand i ≤ min superChance 1 then "super" else "regular"
  else "regular"

/-- The mega-tier check of `rollCriticalHit`, falling through to the
super-tier check. -/
def rollMegaOrBelow (critChance : ℚ) (rand : ℕ → ℚ) (i : ℕ) : String :=
  if megaThreshold ≤ critChance then
    let megaChance := (critChance - megaThreshold + 1 / 100) /
      (megaThreshold - superThreshold)
    if rand i ≤ min megaChance 1 then "mega"
    else rollSuperOrBelow critChance rand (i + 1)
  else rollSuperOrBelow critChance rand i

/-- `rollCriticalHit`, with the injectable random source modelled as the
stream `rand` of successive `Math.random()` draws: draw 0 is the crit
roll, and each executed tier check consumes the next draw in order. -/
def rollCriticalHit (critChance : ℚ) (rand : ℕ → ℚ) : String :=
  if rand 0 > min critChance 1 then "normal"
  else if omegaThreshold ≤ critChance then
    let omegaChance := (critChance - omegaThreshold + 1 / 100) /
      (omegaThreshold - megaThreshold)
    if rand 1 ≤ min omegaChance 1 then "omega"
    else rollMegaOrBelow critChance rand 2
  else rollMegaOrBelow critChance rand 1

/-- Transcription of the claimed resolution protocol: the ordered tier
list `(name, threshold, next lower threshold)` checked from highest to
lowest. -/
def claimTierTriples : List (String × ℚ × ℚ) :=
  [("omega", omegaThreshold, megaThreshold),
   ("mega", megaThreshold, superThreshold),
   ("super", superThreshold, regularThreshold)]

/-- Claimed protocol: scan the tiers in order, skipping a tier whose
threshold exceeds the crit chance; each checked tier consumes a fresh
roll and wins exactly when that roll is at most
`min((c - threshold + 0.01) / (threshold - nextLower), 1)`. -/
def claimTierScan (c : ℚ) (rand : ℕ → ℚ) :
    List (String × ℚ × ℚ) → ℕ → String
  | [], _ => "regular"
  | (nm, th, lower) :: rest, i =>
    if th ≤ c then
      if rand i ≤ min ((c - th + 1 / 100) / (th - lower)) 1 then nm
      else claimTierScan c rand rest (i + 1)
    else claimTierScan c rand rest i

/-- Claimed protocol, entry point: `normal` exactly when the first roll
strictly exceeds `min(c, 1)`, otherwise the ordered tier scan, with
`regular` when every check fails or is skipped. -/
def claimRollCriticalHit (c : ℚ) (rand : ℕ → ℚ) : String :=
  if rand 0 > min c 1 then "normal"
  else claimTierScan c rand claimTierTriples 1

end DBPath

namespace DBPath

/-- A sample character used by concrete witnesses: VIT = 100, level 1,
default resource stats. -/
def sampleCharacter : Character :=
  mkCharacter 100 50 75 10 100 10 10 10 10 1 0 100 (1 / 10) none 0 0

/-! ## Theorems -/

/-- **C1.** For every crit-chance value and every stream of rolls,
`rollCriticalHit` realizes the claimed resolution protocol: it returns
`normal` exactly when the first roll strictly exceeds `min(c, 1)`, and
otherwise checks omega, mega, super in order, skipping tiers whose
threshold exceeds `c`, drawing one fresh roll per checked tier and
returning that tier exactly when the roll is at most
`min((c - threshold + 0.01) / (threshold - nextLower), 1)`, with
`regular` after all checks fail or are skipped. -/
theorem rollCriticalHit_matches_claim (c : ℚ) (rand : ℕ → ℚ) :
    rollCriticalHit c rand = claimRollCriticalHit c rand ∧
      (rollCriticalHit c rand = "normal" ↔ min c 1 < rand 0) := by
  have hscan : ∀ (l : List (String × ℚ × ℚ)) (i : ℕ),
      (∀ p ∈ l, p.1 ≠ "normal") → claimTierScan c rand l i ≠ "normal" := by
    intro l
    induction l with
    | nil => intro i _; simp [claimTierScan]
    | cons p rest ih =>
      intro i hp
      obtain ⟨nm, th, lo⟩ := p
      simp only [claimTierScan]
      split_ifs
      · exact hp (nm, th, lo) (List.mem_cons_self _ _)
      · exact ih _ fun q hq => hp q (List.mem_cons_of_mem _ hq)
      · exact ih _ fun q hq => hp q (List.mem_cons_of_mem _ hq)
  have heq : rollCriticalHit c rand = claimRollCriticalHit c rand := by
    unfold rollCriticalHit claimRollCriticalHit rollMegaOrBelow rollSuperOrBelow
    simp only [claimTierTriples, claimTierScan]
  refine ⟨heq, ?_⟩
  rw [heq]
  unfold claimRollCriticalHit
  split_ifs with h
  · simpa using h
  · exact iff_of_false (hscan _ _ (by decide)) h

/-- **C2.** For every base-stat assignment with `STR > 0`, after the
combat-stat recompute the physical tier multipliers satisfy
`normal < regular ≤ super < mega < omega`, where `regular = super =
critDamage = 1.5 + (STR / (STR + 200)) * 3.5`, `mega = critDamage * 1.5`
and `omega = critDamage * 2`. -/
theorem critTiers_phys_ordering (str tec : ℚ) (h : 0 < str) :
    (updatedCritTiers str tec).normal.physMultiplier <
        (updatedCritTiers str tec).regular.physMultiplier ∧
      (updatedCritTiers str tec).regular.physMultiplier ≤
        (updatedCritTiers str tec).super.physMultiplier ∧
      (updatedCritTiers str tec).super.physMultiplier <
        (updatedCritTiers str tec).mega.physMultiplier ∧
      (updatedCritTiers str tec).mega.physMultiplier <
        (updatedCritTiers str tec).omega.physMultiplier := by
  have hd : (0 : ℚ) < str + 200 := by linarith
  have hq : 0 < str / (str + 200) := div_pos h hd
  simp only [updatedCritTiers, calculateCritDamage]
  refine ⟨by nlinarith, le_refl _, by nlinarith, by nlinarith⟩

/-- The `_modifyResource` clamp never goes below the lower bound. -/
theorem modifyValue_nonneg (v a mx : ℚ) : 0 ≤ modifyValue v a 0 mx :=
  le_max_left _ _

/-- The `_modifyResource` clamp never exceeds a non-negative upper
bound. -/
theorem modifyValue_le (v a mx : ℚ) (hmx : 0 ≤ mx) :
    modifyValue v a 0 mx ≤ mx :=
  max_le hmx (min_le_right _ _)

/-- `takeDamage` preserves the pool invariant. -/
theorem takeDamage_inv (s : CharacterResources) (a : ℚ)
    (h : ResourcesInv s) : ResourcesInv (s.takeDamage a) := by
  obtain ⟨h1, h2, h3, h4, h5, h6, h7, h8⟩ := h
  unfold CharacterResources.takeDamage
  split_ifs
  · exact ⟨h1, h2, h3, h4, h5, h6, h7, h8⟩
  · exact ⟨modifyValue_nonneg _ _ _, modifyValue_le _ _ _ (le_trans h1 h2),
      h3, h4, h5, h6, h7, h8⟩

/-- `restoreHealth` preserves the pool invariant. -/
theorem restoreHealth_inv (s : CharacterResources) (a : ℚ)
    (h : ResourcesInv s) : ResourcesInv (restoreHealth s a) := by
  obtain ⟨h1, h2, h3, h4, h5, h6, h7, h8⟩ := h
  unfold restoreHealth
  split_ifs
  · exact ⟨h1, h2, h3, h4, h5, h6, h7, h8⟩
  · exact ⟨modifyValue_nonneg _ _ _, modifyValue_le _ _ _ (le_trans h1 h2),
      h3, h4, h5, h6, h7, h8⟩

/-- `useKi` preserves the pool invariant. -/
theorem useKi_inv (s : CharacterResources) (a : ℚ)
    (h : ResourcesInv s) : ResourcesInv (useKi s a).2 := by
  obtain ⟨h1, h2, h3, h4, h5, h6, h7, h8⟩ := h
  unfold useKi
  split_ifs
  · exact ⟨h1, h2, h3, h4, h5, h6, h7, h8⟩
  · exact ⟨h1, h2, h3, h4, h5, h6, h7, h8⟩
  · exact ⟨h1, h2, modifyValue_nonneg _ _ _,
      modifyValue_le _ _ _ (le_trans h3 h4), h5, h6, h7, h8⟩

/-- `restoreKi` preserves the pool invariant. -/
theorem restoreKi_inv (s : CharacterResources) (a : ℚ)
    (h : ResourcesInv s) : ResourcesInv (restoreKi s a) := by
  obtain ⟨h1, h2, h3, h4, h5, h6, h7, h8⟩ := h
  unfold restoreKi
  split_ifs
  · exact ⟨h1, h2, h3, h4, h5, h6, h7, h8⟩
  · exact ⟨h1, h2, modifyValue_nonneg _ _ _,
      modifyValue_le _ _ _ (le_trans h3 h4), h5, h6, h7, h8⟩

/-- `addFatigue` preserves the pool invariant. -/
theorem addFatigue_inv (s : CharacterResources) (a : ℚ)
    (h : ResourcesInv s) : ResourcesInv (addFatigue s a) := by
  obtain ⟨h1, h2, h3, h4, h5, h6, h7, h8⟩ := h
  unfold addFatigue
  split_ifs
  · exact ⟨h1, h2, h3, h4, h5, h6, h7, h8⟩
  · exact ⟨h1, h2, h3, h4, h5, h6, modifyValue_nonneg _ _ _,
      modifyValue_le _ _ _ (by norm_num)⟩

/-- `reduceFatigue` preserves the pool invariant. -/
theorem reduceFatigue_inv (s : CharacterResources) (a : ℚ)
    (h : ResourcesInv s) : ResourcesInv (reduceFatigue s a) := by
  obtain ⟨h1, h2, h3, h4, h5, h6, h7, h8⟩ := h
  unfold reduceFatigue
  split_ifs
  · exact ⟨h1, h2, h3, h4, h5, h6, h7, h8⟩
  · exact ⟨h1, h2, h3, h4, h5, h6, modifyValue_nonneg _ _ _,
      modifyValue_le _ _ _ (by norm_num)⟩

/-- `useStamina` preserves the pool invariant. -/
theorem useStamina_inv (s : CharacterResources) (a : ℚ)
    (h : ResourcesInv s) : ResourcesInv (useStamina s a).2 := by
  obtain ⟨h1, h2, h3, h4, h5, h6, h7, h8⟩ := h
  unfold useStamina
  split_ifs
  · exact ⟨h1, h2, h3, h4, h5, h6, h7, h8⟩
  · exact ⟨h1, h2, h3, h4, h5, h6, h7, h8⟩
  · exact addFatigue_inv _ _ ⟨h1, h2, h3, h4, modifyValue_nonneg _ _ _,
      modifyValue_le _ _ _ (le_trans h5 h6), h7, h8⟩

/-- `recoverStamina` preserves the pool invariant. -/
theorem recoverStamina_inv (s : CharacterResources) (a : ℚ)
    (h : ResourcesInv s) : ResourcesInv (recoverStamina s a) := by
  obtain ⟨h1, h2, h3, h4, h5, h6, h7, h8⟩ := h
  unfold recoverStamina
  split_ifs
  · exact ⟨h1, h2, h3, h4, h5, h6, h7, h8⟩
  · exact ⟨h1, h2, h3, h4, modifyValue_nonneg _ _ _,
      modifyValue_le _ _ _ (le_trans h5 h6), h7, h8⟩

/-- Every single resource mutator preserves the pool invariant. -/
theorem applyResourceOp_inv (s : CharacterResources) (op : ResourceOp)
    (h : ResourcesInv s) : ResourcesInv (applyResourceOp s op) := by
  cases op with
  | takeDamage a => exact takeDamage_inv s a h
  | restoreHealth a => exact restoreHealth_inv s a h
  | useKi a => exact useKi_inv s a h
  | restoreKi a => exact restoreKi_inv s a h
  | useStamina a => exact useStamina_inv s a h
  | recoverStamina a => exact recoverStamina_inv s a h
  | addFatigue a => exact addFatigue_inv s a h
  | reduceFatigue a => exact reduceFatigue_inv s a h

/-- **C3.** From any state satisfying the pool invariant, any finite
sequence of resource mutators with arbitrary (possibly overshooting)
amounts keeps every pool in `[0, max]` and fatigue in `[0, 100]`; since
the operation list is universally quantified, every intermediate state
(the result of a prefix) is covered as well. -/
theorem resources_invariant_preserved (s : CharacterResources)
    (h : ResourcesInv s) (ops : List ResourceOp) :
    ResourcesInv (applyResourceOps s ops) := by
  induction ops generalizing s with
  | nil => exact h
  | cons op rest ih => exact ih _ (applyResourceOp_inv s op h)

/-- Witness for C3: a full-pools state run through one call of each
mutator, several of them overshooting. -/
theorem resources_invariant_preserved_witness :
    ResourcesInv ⟨100, 50, 75, 100, 50, 75, 0⟩ ∧
      ResourcesInv (applyResourceOps ⟨100, 50, 75, 100, 50, 75, 0⟩
        [.takeDamage 30, .useKi 20, .useStamina 40, .addFatigue 15,
         .restoreHealth 10, .recoverStamina 25, .restoreKi 500,
         .reduceFatigue 10, .takeDamage 1000, .useStamina 1000]) :=
  ⟨by decide, resources_invariant_preserved _ (by decide) _⟩

/-- **C7.** For a valid resource state and a positive amount: `useKi`
(resp. `useStamina`) returns `false` and leaves the whole state unchanged
when the amount exceeds the current pool; when the amount fits, it
returns `true`, the pool decreases by exactly the amount, and
`useStamina` additionally raises fatigue by `⌈amount * 0.1⌉` clamped to
100. -/
theorem useKi_useStamina_spec (s : CharacterResources) (a : ℚ)
    (hInv : ResourcesInv s) (ha : 0 < a) :
    (s.ki < a → useKi s a = (false, s)) ∧
      (a ≤ s.ki → useKi s a = (true, { s with ki := s.ki - a })) ∧
      (s.stamina < a → useStamina s a = (false, s)) ∧
      (a ≤ s.stamina → useStamina s a =
        (true, { s with
          stamina := s.stamina - a
          fatigue := min (s.fatigue + ((⌈a * (1 / 10)⌉ : ℤ) : ℚ)) 100 })) := by
  obtain ⟨h1, h2, h3, h4, h5, h6, h7, h8⟩ := hInv
  have hc : (0 : ℚ) < ((⌈a * (1 / 10)⌉ : ℤ) : ℚ) := by
    have : (0 : ℤ) < ⌈a * (1 / 10)⌉ := Int.ceil_pos.mpr (by positivity)
    exact_mod_cast this
  refine ⟨?_, ?_, ?_, ?_⟩
  · intro hlt
    unfold useKi
    rw [if_neg (not_le.mpr ha), if_pos hlt]
  · intro hge
    have hki : modifyValue s.ki (-a) 0 (s.maxKi : ℚ) = s.ki - a := by
      unfold modifyValue
      rw [← sub_eq_add_neg, min_eq_left (by linarith), max_eq_right (by linarith)]
    unfold useKi
    rw [if_neg (not_le.mpr ha), if_neg (not_lt.mpr hge), hki]
  · intro hlt
    simp only [useStamina]
    rw [if_neg (not_le.mpr ha), if_pos hlt]
  · intro hge
    have hst : modifyValue s.stamina (-a) 0 (s.maxStamina : ℚ) = s.stamina - a := by
      unfold modifyValue
      rw [← sub_eq_add_neg, min_eq_left (by linarith), max_eq_right (by linarith)]
    have hfat : modifyValue s.fatigue ((⌈a * (1 / 10)⌉ : ℤ) : ℚ) 0 100 =
        min (s.fatigue + ((⌈a * (1 / 10)⌉ : ℤ) : ℚ)) 100 := by
      unfold modifyValue
      rw [max_eq_right (le_min (by linarith) (by norm_num))]
    simp only [useStamina]
    rw [if_neg (not_le.mpr ha), if_neg (not_lt.mpr hge)]
    simp only [addFatigue]
    rw [if_neg (not_le.mpr hc)]
    rw [hst, hfat]

/-- Witness for C7: ki = 50 with a request of 60 fails; stamina = 75
with a request of 60 succeeds and adds `⌈6⌉ = 6` fatigue. -/
theorem useKi_useStamina_spec_witness :
    ResourcesInv ⟨100, 50, 75, 100, 50, 75, 0⟩ ∧ (0 : ℚ) < 60 ∧
      (((⟨100, 50, 75, 100, 50, 75, 0⟩ : CharacterResources).ki < 60 →
          useKi ⟨100, 50, 75, 100, 50, 75, 0⟩ 60 =
            (false, ⟨100, 50, 75, 100, 50, 75, 0⟩)) ∧
        ((60 : ℚ) ≤ (⟨100, 50, 75, 100, 50, 75, 0⟩ : CharacterResources).ki →
          useKi ⟨100, 50, 75, 100, 50, 75, 0⟩ 60 =
            (true, { (⟨100, 50, 75, 100, 50, 75, 0⟩ : CharacterResources) with
              ki := (⟨100, 50, 75, 100, 50, 75, 0⟩ : CharacterResources).ki - 60 })) ∧
        ((⟨100, 50, 75, 100, 50, 75, 0⟩ : CharacterResources).stamina < 60 →
          useStamina ⟨100, 50, 75, 100, 50, 75, 0⟩ 60 =
            (false, ⟨100, 50, 75, 100, 50, 75, 0⟩)) ∧
        ((60 : ℚ) ≤ (⟨100, 50, 75, 100, 50, 75, 0⟩ : CharacterResources).stamina →
          useStamina ⟨100, 50, 75, 100, 50, 75, 0⟩ 60 =
            (true, { (⟨100, 50, 75, 100, 50, 75, 0⟩ : CharacterResources) with
              stamina := (⟨100, 50, 75, 100, 50, 75, 0⟩ : CharacterResources).stamina - 60
              fatigue :=
                min ((⟨100, 50, 75, 100, 50, 75, 0⟩ : CharacterResources).fatigue +
                  ((⌈(60 : ℚ) * (1 / 10)⌉ : ℤ) : ℚ)) 100 }))) :=
  ⟨by decide, by norm_num, useKi_useStamina_spec ⟨100, 50, 75, 100, 50, 75, 0⟩ 60
    (by decide) (by norm_num)⟩

/-- **C4.** For a positive amount and a recognized damage kind, the
Character damage entry point reduces current health by exactly
`min(health, max(0, round(amount * (1 - resistanceFor(kind)))))` and
leaves every other resource value, the base stats, the attributes and
the resistances unchanged. -/
theorem character_takeDamage_spec (ch : Character) (amount : ℚ) (kind : String)
    (hamount : 0 < amount)
    (hkind : kind = "physicalResist" ∨ kind = "energyResist" ∨
      kind = "statusResist")
    (hh0 : 0 ≤ ch.resources.health)
    (hhm : ch.resources.health ≤ (ch.resources.maxHealth : ℚ)) :
    (ch.takeDamage amount kind).resources.health =
        ch.resources.health -
          min ch.resources.health
            ((max 0 (jsRound (amount * (1 - getResistance ch.resistances kind))) : ℤ) : ℚ) ∧
      (ch.takeDamage amount kind).resources.ki = ch.resources.ki ∧
      (ch.takeDamage amount kind).resources.stamina = ch.resources.stamina ∧
      (ch.takeDamage amount kind).resources.fatigue = ch.resources.fatigue ∧
      (ch.takeDamage amount kind).resources.maxHealth = ch.resources.maxHealth ∧
      (ch.takeDamage amount kind).resources.maxKi = ch.resources.maxKi ∧
      (ch.takeDamage amount kind).resources.maxStamina = ch.resources.maxStamina ∧
      (ch.takeDamage amount kind).baseStats = ch.baseStats ∧
      (ch.takeDamage amount kind).attributes = ch.attributes ∧
      (ch.takeDamage amount kind).resistances = ch.resistances := by
  simp only [Character.takeDamage]
  set m : ℤ := max 0 (jsRound (amount * (1 - getResistance ch.resistances kind)))
    with hmdef
  have hm0 : (0 : ℚ) ≤ (m : ℚ) := by
    have : (0 : ℤ) ≤ m := le_max_left _ _
    exact_mod_cast this
  simp only [CharacterResources.takeDamage]
  by_cases hcase : (m : ℚ) ≤ 0
  · rw [if_pos hcase]
    have hmz : (m : ℚ) = 0 := le_antisymm hcase hm0
    rw [hmz, min_eq_right hh0, sub_zero]
    refine ⟨?_, ?_, ?_, ?_, ?_, ?_, ?_, ?_, ?_, ?_⟩ <;> trivial
  · rw [if_neg hcase]
    push_neg at hcase
    refine ⟨?_, ?_, ?_, ?_, ?_, ?_, ?_, ?_, ?_, ?_⟩ <;> try trivial
    show modifyValue ch.resources.health (-(m : ℚ)) 0 (ch.resources.maxHealth : ℚ) =
      ch.resources.health - min ch.resources.health (m : ℚ)
    unfold modifyValue
    rw [← sub_eq_add_neg, min_eq_left (by linarith)]
    rcases le_total ch.resources.health (m : ℚ) with hle | hle
    · rw [min_eq_left hle, max_eq_left (by linarith), sub_self]
    · rw [min_eq_right hle, max_eq_right (by linarith)]

/-- Witness for C4: the sample character (VIT = 100, physical resistance
0.45, health 610) hit for 50 physical damage. -/
theorem character_takeDamage_spec_witness :
    (0 : ℚ) < 50 ∧ (0 : ℚ) ≤ sampleCharacter.resources.health ∧
      sampleCharacter.resources.health ≤ (sampleCharacter.resources.maxHealth : ℚ) ∧
      (sampleCharacter.takeDamage 50 "physicalResist").resources.health =
        sampleCharacter.resources.health -
          min sampleCharacter.resources.health
            ((max 0 (jsRound (50 * (1 - getResistance sampleCharacter.resistances
              "physicalResist"))) : ℤ) : ℚ) :=
  ⟨by norm_num,
    by simp [sampleCharacter, mkCharacter, mkCharacterBaseStats,
      mkCharacterAttributes, mkCharacterResources, calculateMaxValues,
      setToMax, getStat] <;> norm_num,
    by simp [sampleCharacter, mkCharacter, mkCharacterBaseStats,
      mkCharacterAttributes, mkCharacterResources, calculateMaxValues,
      setToMax, getStat] <;> norm_num,
    (character_takeDamage_spec sampleCharacter 50 "physicalResist" (by norm_num)
      (Or.inl rfl)
      (by simp [sampleCharacter, mkCharacter, mkCharacterBaseStats,
        mkCharacterAttributes, mkCharacterResources, calculateMaxValues,
        setToMax, getStat] <;> norm_num)
      (by simp [sampleCharacter, mkCharacter, mkCharacterBaseStats,
        mkCharacterAttributes, mkCharacterResources, calculateMaxValues,
        setToMax, getStat] <;> norm_num)).1⟩

/-- `Math.floor(t * 1.2)` never decreases an integer threshold `t ≥ 1`. -/
theorem threshold_le_next (t : ℤ) (h : 1 ≤ t) : t ≤ ⌊(t : ℚ) * (6 / 5)⌋ := by
  rw [Int.le_floor]
  have ht : (0 : ℚ) ≤ (t : ℚ) := by exact_mod_cast le_trans zero_le_one h
  nlinarith

/-- `levelStep` preserves positivity of the threshold. -/
theorem levelStep_threshold_pos (s : CharacterAttributes)
    (h : 0 < s.xpToNextLevel) : 0 < (levelStep s).xpToNextLevel :=
  lt_of_lt_of_le h (threshold_le_next _ h)

/-- Field accounting for iterated `levelStep`: each iteration adds one
level, five unallocated stat points and one skill point. -/
theorem levelStep_iterate_fields (s : CharacterAttributes) (n : ℕ) :
    (levelStep^[n] s).level = s.level + n ∧
      (levelStep^[n] s).unallocatedStatPoints =
        s.unallocatedStatPoints + 5 * n ∧
      (levelStep^[n] s).skillPoints = s.skillPoints + n := by
  induction n with
  | zero => simp
  | succ k ih =>
    obtain ⟨ih1, ih2, ih3⟩ := ih
    rw [Function.iterate_succ_apply']
    refine ⟨?_, ?_, ?_⟩
    · show (levelStep^[k] s).level + 1 = s.level + (k + 1 : ℕ)
      rw [ih1]; push_cast; ring
    · show (levelStep^[k] s).unallocatedStatPoints + 5 =
        s.unallocatedStatPoints + 5 * (k + 1 : ℕ)
      rw [ih2]; push_cast; ring
    · show (levelStep^[k] s).skillPoints + 1 = s.skillPoints + (k + 1 : ℕ)
      rw [ih3]; push_cast; ring

/-- The cascade loop runs `levelStep` exactly until `xp` drops below the
threshold: the result is an iterate, the final state no longer triggers,
and every earlier iterate still triggers. -/
theorem addXPLoop_spec (s : CharacterAttributes) (h : 0 < s.xpToNextLevel) :
    ∃ n : ℕ, addXPLoop s = levelStep^[n] s ∧
      (addXPLoop s).xp < ((addXPLoop s).xpToNextLevel : ℚ) ∧
      ∀ m < n, ((levelStep^[m] s).xpToNextLevel : ℚ) ≤ (levelStep^[m] s).xp := by
  induction s using addXPLoop.induct with
  | case1 s hgate ih =>
    obtain ⟨h1, h2⟩ := hgate
    have hunf : addXPLoop s = addXPLoop (levelStep s) := by
      rw [addXPLoop]; exact dif_pos ⟨h1, h2⟩
    obtain ⟨n, hn1, hn2, hn3⟩ := ih (levelStep_threshold_pos s h1)
    refine ⟨n + 1, ?_, ?_, ?_⟩
    · rw [hunf, hn1, Function.iterate_succ_apply]
    · rw [hunf]; exact hn2
    · intro m hm
      match m with
      | 0 => exact h2
      | k + 1 =>
        rw [Function.iterate_succ_apply]
        exact hn3 k (by omega)
  | case2 s hgate =>
    have hstop : addXPLoop s = s := by rw [addXPLoop]; exact dif_neg hgate
    refine ⟨0, by rw [hstop, Function.iterate_zero_apply], ?_, by omega⟩
    rw [hstop]
    by_contra hcon
    exact hgate ⟨h, not_lt.mp hcon⟩

/-- **C5.** Under the precondition `xpToNextLevel > 0`, `addXP` adds the
amount to `xp` and then fires exactly the level-ups obtained by iterating
the subtract-threshold-then-level-up step until `xp < xpToNextLevel`:
the result is `levelStep^[n]` of the post-grant state for some `n`, the
final state no longer meets the threshold, every earlier iterate did,
and the `n` level-ups are all reflected in level, stat points and skill
points. -/
theorem addXP_cascade_spec (s : CharacterAttributes) (amount : ℚ)
    (h : 0 < s.xpToNextLevel) :
    ∃ n : ℕ,
      addXP s amount = levelStep^[n] { s with xp := s.xp + amount } ∧
        (addXP s amount).xp < ((addXP s amount).xpToNextLevel : ℚ) ∧
        (∀ m < n,
          ((levelStep^[m] { s with xp := s.xp + amount }).xpToNextLevel : ℚ) ≤
            (levelStep^[m] { s with xp := s.xp + amount }).xp) ∧
        (addXP s amount).level = s.level + n ∧
        (addXP s amount).unallocatedStatPoints =
          s.unallocatedStatPoints + 5 * n ∧
        (addXP s amount).skillPoints = s.skillPoints + n := by
  obtain ⟨n, h1, h2, h3⟩ :=
    addXPLoop_spec { s with xp := s.xp + amount } (by exact h)
  obtain ⟨f1, f2, f3⟩ :=
    levelStep_iterate_fields { s with xp := s.xp + amount } n
  refine ⟨n, h1, h2, h3, ?_, ?_, ?_⟩
  · show (addXP s amount).level = s.level + (n : ℤ)
    rw [addXP, h1, f1]
  · show (addXP s amount).unallocatedStatPoints =
      s.unallocatedStatPoints + 5 * (n : ℤ)
    rw [addXP, h1, f2]
  · show (addXP s amount).skillPoints = s.skillPoints + (n : ℤ)
    rw [addXP, h1, f3]

/-- Witness for C5: level 1, threshold 100, a single grant of 250 XP
(crossing the 100 and then the 120 threshold, so two level-ups fire). -/
theorem addXP_cascade_spec_witness :
    0 < (mkCharacterAttributes 1 0 100 (1 / 10) none 0 0 none).xpToNextLevel ∧
      (∃ n : ℕ,
        addXP (mkCharacterAttributes 1 0 100 (1 / 10) none 0 0 none) 250 =
            levelStep^[n] { mkCharacterAttributes 1 0 100 (1 / 10) none 0 0 none with
              xp := (mkCharacterAttributes 1 0 100 (1 / 10) none 0 0 none).xp + 250 } ∧
          (addXP (mkCharacterAttributes 1 0 100 (1 / 10) none 0 0 none) 250).xp <
            (((addXP (mkCharacterAttributes 1 0 100 (1 / 10) none 0 0 none) 250).xpToNextLevel : ℤ) : ℚ) ∧
          (∀ m < n,
            (((levelStep^[m] { mkCharacterAttributes 1 0 100 (1 / 10) none 0 0 none with
                xp := (mkCharacterAttributes 1 0 100 (1 / 10) none 0 0 none).xp + 250 }).xpToNextLevel : ℤ) : ℚ) ≤
              (levelStep^[m] { mkCharacterAttributes 1 0 100 (1 / 10) none 0 0 none with
                xp := (mkCharacterAttributes 1 0 100 (1 / 10) none 0 0 none).xp + 250 }).xp) ∧
          (addXP (mkCharacterAttributes 1 0 100 (1 / 10) none 0 0 none) 250).level =
            (mkCharacterAttributes 1 0 100 (1 / 10) none 0 0 none).level + n ∧
          (addXP (mkCharacterAttributes 1 0 100 (1 / 10) none 0 0 none) 250).unallocatedStatPoints =
            (mkCharacterAttributes 1 0 100 (1 / 10) none 0 0 none).unallocatedStatPoints + 5 * n ∧
          (addXP (mkCharacterAttributes 1 0 100 (1 / 10) none 0 0 none) 250).skillPoints =
            (mkCharacterAttributes 1 0 100 (1 / 10) none 0 0 none).skillPoints + n) :=
  ⟨by decide,
    addXP_cascade_spec (mkCharacterAttributes 1 0 100 (1 / 10) none 0 0 none) 250
      (by decide)⟩

/-- The fuelled raw loop reaches the guarded loop's result for every
positive threshold. -/
theorem addXPFuel_reaches (s : CharacterAttributes)
    (h : 0 < s.xpToNextLevel) :
    ∃ fuel : ℕ, addXPFuel fuel s = some (addXPLoop s) := by
  induction s using addXPLoop.induct with
  | case1 s hgate ih =>
    obtain ⟨h1, h2⟩ := hgate
    obtain ⟨fuel, hf⟩ := ih (levelStep_threshold_pos s h1)
    refine ⟨fuel + 1, ?_⟩
    have hunf : addXPLoop s = addXPLoop (levelStep s) := by
      rw [addXPLoop]; exact dif_pos ⟨h1, h2⟩
    rw [addXPFuel, if_pos h2, hf, hunf]
  | case2 s hgate =>
    refine ⟨0, ?_⟩
    have hstop : addXPLoop s = s := by rw [addXPLoop]; exact dif_neg hgate
    have hlt : ¬ ((s.xpToNextLevel : ℚ) ≤ s.xp) := fun hle => hgate ⟨h, hle⟩
    rw [addXPFuel, if_neg hlt, hstop]

/-- **C6.** Under the spec precondition `xpToNextLevel > 0` (an integer
threshold, hence `≥ 1`), the cascade loop of `addXP` terminates: some
finite fuel makes the raw (unguarded) loop return `some` of the total
embedding's result, and the threshold update `⌊t * 1.2⌋` never decreases
a threshold `t ≥ 1`, which is what keeps the loop measure decreasing. -/
theorem addXP_loop_terminates (s : CharacterAttributes) (amount : ℚ)
    (h : 0 < s.xpToNextLevel) :
    (∃ fuel : ℕ,
        addXPFuel fuel { s with xp := s.xp + amount } =
          some (addXP s amount)) ∧
      ∀ t : ℤ, 1 ≤ t → t ≤ ⌊(t : ℚ) * (6 / 5)⌋ :=
  ⟨addXPFuel_reaches { s with xp := s.xp + amount } h,
    fun t ht => threshold_le_next t ht⟩

/-- Witness for C6 at level 1, threshold 100, grant 250. -/
theorem addXP_loop_terminates_witness :
    0 < (mkCharacterAttributes 1 0 100 (1 / 10) none 0 0 none).xpToNextLevel ∧
      ((∃ fuel : ℕ,
          addXPFuel fuel { mkCharacterAttributes 1 0 100 (1 / 10) none 0 0 none with
            xp := (mkCharacterAttributes 1 0 100 (1 / 10) none 0 0 none).xp + 250 } =
            some (addXP (mkCharacterAttributes 1 0 100 (1 / 10) none 0 0 none) 250)) ∧
        ∀ t : ℤ, 1 ≤ t → t ≤ ⌊(t : ℚ) * (6 / 5)⌋) :=
  ⟨by decide,
    addXP_loop_terminates (mkCharacterAttributes 1 0 100 (1 / 10) none 0 0 none) 250
      (by decide)⟩

set_option maxHeartbeats 4000000 in
/-- Writing a recognized stat updates exactly that stat: reading it back
gives the new value and reading any other key is unchanged. -/
theorem getStat_setStat (bs : CharacterBaseStats) (key : String) (v : ℚ)
    (hkey : key ∈ statKeyValues) :
    getStat (setStat bs key v) key = v ∧
      ∀ k : String, k ≠ key → getStat (setStat bs key v) k = getStat bs k := by
  simp only [statKeyValues, List.mem_cons, List.not_mem_nil, or_false] at hkey
  rcases hkey with h | h | h | h | h | h | h | h | h <;> subst h <;>
    refine ⟨by simp only [getStat, setStat, String.reduceEq, reduceIte],
      fun k hk => ?_⟩ <;>
    · simp only [setStat, String.reduceEq, reduceIte]
      simp only [getStat]
      split_ifs <;> first | rfl | exact absurd (by assumption) hk

/-- **C8.** `allocateStatPoint` returns `false` with no mutation when no
points are unallocated, when no BaseStats is linked, or when the key is
unrecognized; whenever it returns `true`, exactly one point was deducted
and exactly the named base stat grew by 1, every other stat and every
other progression field unchanged. -/
theorem allocateStatPoint_spec (s : CharacterAttributes) (key : String) :
    (s.unallocatedStatPoints ≤ 0 → allocateStatPoint s key = (false, s)) ∧
      (s.baseStats = none → allocateStatPoint s key = (false, s)) ∧
      (key ∉ statKeyValues → allocateStatPoint s key = (false, s)) ∧
      ∀ b r, s.baseStats = some b → allocateStatPoint s key = (true, r) →
        r.unallocatedStatPoints = s.unallocatedStatPoints - 1 ∧
          r.baseStats = some (setStat b key (getStat b key + 1)) ∧
          getStat (setStat b key (getStat b key + 1)) key = getStat b key + 1 ∧
          (∀ k : String, k ≠ key →
            getStat (setStat b key (getStat b key + 1)) k = getStat b k) ∧
          r.level = s.level ∧ r.xp = s.xp ∧
          r.xpToNextLevel = s.xpToNextLevel ∧ r.potential = s.potential ∧
          r.potentialCap = s.potentialCap ∧ r.skillPoints = s.skillPoints := by
  refine ⟨?_, ?_, ?_, ?_⟩
  · intro h0
    unfold allocateStatPoint
    rw [if_pos h0]
  · intro hnone
    unfold allocateStatPoint
    rw [hnone]
    split_ifs <;> rfl
  · intro hk
    unfold allocateStatPoint
    split_ifs with h1 h2
    all_goals first
      | rfl
      | (cases s.baseStats <;> rfl)
      | exact absurd hk h2
  · intro b r hb hres
    simp only [allocateStatPoint, hb] at hres
    by_cases h0 : s.unallocatedStatPoints ≤ 0
    · rw [if_pos h0] at hres
      simp at hres
    · rw [if_neg h0] at hres
      by_cases hk : key ∉ statKeyValues
      · rw [if_pos hk] at hres
        simp at hres
      · rw [if_neg hk] at hres
        push_neg at hk
        have hinc : increaseStat b key 1 =
            (true, setStat b key (getStat b key + 1)) := by
          unfold increaseStat
          rw [if_neg (not_not_intro hk), if_neg (by norm_num)]
        rw [hinc] at hres
        rw [if_pos rfl] at hres
        injection hres with hfst hsnd
        obtain ⟨hg1, hg2⟩ := getStat_setStat b key (getStat b key + 1) hk
        subst hsnd
        exact ⟨rfl, rfl, hg1, hg2, rfl, rfl, rfl, rfl, rfl, rfl⟩

/-- Witness for C8: with zero unallocated points the call fails and the
state is returned untouched. -/
theorem allocateStatPoint_spec_witness :
    (mkCharacterAttributes 1 0 100 (1 / 10) none 0 0
        (some (mkCharacterBaseStats 100 50 75 10 10 10 10 10 10))).unallocatedStatPoints ≤ 0 ∧
      allocateStatPoint
        (mkCharacterAttributes 1 0 100 (1 / 10) none 0 0
          (some (mkCharacterBaseStats 100 50 75 10 10 10 10 10 10))) "str" =
        (false, mkCharacterAttributes 1 0 100 (1 / 10) none 0 0
          (some (mkCharacterBaseStats 100 50 75 10 10 10 10 10 10))) :=
  ⟨by decide,
    (allocateStatPoint_spec
      (mkCharacterAttributes 1 0 100 (1 / 10) none 0 0
        (some (mkCharacterBaseStats 100 50 75 10 10 10 10 10 10))) "str").1
      (by decide)⟩

/-- The cascade loop never touches `potential` or `potentialCap`. -/
theorem addXPLoop_potential (s : CharacterAttributes) :
    (addXPLoop s).potential = s.potential ∧
      (addXPLoop s).potentialCap = s.potentialCap := by
  induction s using addXPLoop.induct with
  | case1 s hgate ih =>
    have hunf : addXPLoop s = addXPLoop (levelStep s) := by
      rw [addXPLoop]; exact dif_pos hgate
    rw [hunf]
    exact ⟨ih.1, ih.2⟩
  | case2 s hgate =>
    have hstop : addXPLoop s = s := by rw [addXPLoop]; exact dif_neg hgate
    rw [hstop]
    exact ⟨rfl, rfl⟩

/-- Every attribute operation preserves `potential ≤ potentialCap`. -/
theorem applyAttrOp_potential (s : CharacterAttributes) (op : AttrOp)
    (h : s.potential ≤ s.potentialCap) :
    (applyAttrOp s op).potential ≤ (applyAttrOp s op).potentialCap := by
  cases op with
  | addXP a =>
    obtain ⟨hp, hc⟩ := addXPLoop_potential { s with xp := s.xp + a }
    show (addXP s a).potential ≤ (addXP s a).potentialCap
    rw [addXP, hp, hc]
    exact h
  | levelUp => exact h
  | allocateStatPoint k =>
    rcases hbs : s.baseStats with _ | bs <;>
      simp only [applyAttrOp, allocateStatPoint, hbs] <;>
      split_ifs <;> exact h
  | useSkillPoint =>
    simp only [applyAttrOp, useSkillPoint]
    split_ifs <;> exact h
  | increasePotential a => exact min_le_right _ _

/-- **C9 (counterexample).** Construction with an explicit configuration
supplying both `potential = 0.5` and `potentialCap = 0.2` already
violates `potential ≤ potentialCap`: the constructor stores both values
as given without clamping, so the claimed invariant fails in a reachable
(indeed initial) state. -/
theorem potential_cap_claim_counterexample :
    ¬ ((mkCharacterAttributes 1 0 100 (1 / 2) (some (1 / 5)) 0 0 none).potential ≤
        (mkCharacterAttributes 1 0 100 (1 / 2) (some (1 / 5)) 0 0 none).potentialCap) := by
  norm_num [mkCharacterAttributes]

/-- **C9 (amended).** From any state whose `potential` does not already
exceed `potentialCap` — in particular from any construction that leaves
`potentialCap` to its default of `potential` — every sequence of addXP,
levelUp, allocateStatPoint, useSkillPoint and increasePotential calls
keeps `potential ≤ potentialCap`. -/
theorem potential_cap_invariant (s : CharacterAttributes)
    (h : s.potential ≤ s.potentialCap) (ops : List AttrOp) :
    (applyAttrOps s ops).potential ≤ (applyAttrOps s ops).potentialCap ∧
      ∀ (level : ℤ) (xp : ℚ) (t : ℤ) (pot : ℚ) (un sk : ℤ)
        (obs : Option CharacterBaseStats),
        (mkCharacterAttributes level xp t pot none un sk obs).potential ≤
          (mkCharacterAttributes level xp t pot none un sk obs).potentialCap := by
  refine ⟨?_, fun _ _ _ _ _ _ _ => le_refl _⟩
  induction ops generalizing s with
  | nil => exact h
  | cons op rest ih => exact ih _ (applyAttrOp_potential s op h)

/-- Witness for C9 (amended): default-cap construction followed by an
XP grant, a level-up, allocations, a skill point and an (overshooting)
potential increase. -/
theorem potential_cap_invariant_witness :
    (mkCharacterAttributes 1 0 100 (1 / 10) none 0 0 none).potential ≤
        (mkCharacterAttributes 1 0 100 (1 / 10) none 0 0 none).potentialCap ∧
      ((applyAttrOps (mkCharacterAttributes 1 0 100 (1 / 10) none 0 0 none)
            [.addXP 150, .levelUp, .allocateStatPoint "str", .useSkillPoint,
             .increasePotential 5]).potential ≤
          (applyAttrOps (mkCharacterAttributes 1 0 100 (1 / 10) none 0 0 none)
            [.addXP 150, .levelUp, .allocateStatPoint "str", .useSkillPoint,
             .increasePotential 5]).potentialCap ∧
        ∀ (level : ℤ) (xp : ℚ) (t : ℤ) (pot : ℚ) (un sk : ℤ)
          (obs : Option CharacterBaseStats),
          (mkCharacterAttributes level xp t pot none un sk obs).potential ≤
            (mkCharacterAttributes level xp t pot none un sk obs).potentialCap) :=
  ⟨le_refl _,
    potential_cap_invariant (mkCharacterAttributes 1 0 100 (1 / 10) none 0 0 none)
      (le_refl _)
      [.addXP 150, .levelUp, .allocateStatPoint "str", .useSkillPoint,
       .increasePotential 5]⟩

/-- **C10.** Immediately after `CharacterResources` construction (and
hence after `Character` construction) each current pool equals its
freshly computed maximum and fatigue is 0. -/
theorem construction_resources_full (attrs : CharacterAttributes)
    (bs : CharacterBaseStats) (hp ki sta str vit tec wis aura agi : ℚ)
    (level : ℤ) (xp : ℚ) (xpToNextLevel : ℤ) (potential : ℚ)
    (potentialCapOpt : Option ℚ) (unallocatedStatPoints skillPoints : ℤ) :
    ((mkCharacterResources attrs bs).health =
        ((mkCharacterResources attrs bs).maxHealth : ℚ) ∧
      (mkCharacterResources attrs bs).ki =
        ((mkCharacterResources attrs bs).maxKi : ℚ) ∧
      (mkCharacterResources attrs bs).stamina =
        ((mkCharacterResources attrs bs).maxStamina : ℚ) ∧
      (mkCharacterResources attrs bs).fatigue = 0) ∧
      ((mkCharacter hp ki sta str vit tec wis aura agi level xp xpToNextLevel
          potential potentialCapOpt unallocatedStatPoints skillPoints).resources.health =
        ((mkCharacter hp ki sta str vit tec wis aura agi level xp xpToNextLevel
          potential potentialCapOpt unallocatedStatPoints skillPoints).resources.maxHealth : ℚ) ∧
      (mkCharacter hp ki sta str vit tec wis aura agi level xp xpToNextLevel
          potential potentialCapOpt unallocatedStatPoints skillPoints).resources.ki =
        ((mkCharacter hp ki sta str vit tec wis aura agi level xp xpToNextLevel
          potential potentialCapOpt unallocatedStatPoints skillPoints).resources.maxKi : ℚ) ∧
      (mkCharacter hp ki sta str vit tec wis aura agi level xp xpToNextLevel
          potential potentialCapOpt unallocatedStatPoints skillPoints).resources.stamina =
        ((mkCharacter hp ki sta str vit tec wis aura agi level xp xpToNextLevel
          potential potentialCapOpt unallocatedStatPoints skillPoints).resources.maxStamina : ℚ) ∧
      (mkCharacter hp ki sta str vit tec wis aura agi level xp xpToNextLevel
          potential potentialCapOpt unallocatedStatPoints skillPoints).resources.fatigue = 0) :=
  ⟨⟨rfl, rfl, rfl, rfl⟩, rfl, rfl, rfl, rfl⟩

/-- Witness for C2 at `STR = 10`, `TEC = 0`. -/
theorem critTiers_phys_ordering_witness :
    (0 : ℚ) < 10 ∧
      ((updatedCritTiers 10 0).normal.physMultiplier <
          (updatedCritTiers 10 0).regular.physMultiplier ∧
        (updatedCritTiers 10 0).regular.physMultiplier ≤
          (updatedCritTiers 10 0).super.physMultiplier ∧
        (updatedCritTiers 10 0).super.physMultiplier <
          (updatedCritTiers 10 0).mega.physMultiplier ∧
        (updatedCritTiers 10 0).mega.physMultiplier <
          (updatedCritTiers 10 0).omega.physMultiplier) :=
  ⟨by norm_num, critTiers_phys_ordering 10 0 (by norm_num)⟩

end DBPath

